import Mathlib

/-!
Verification of the CSS rule-representation core of
`components/style/stylesheets/mod.rs` (the `CssRule` enum and its
cross-cutting protocols: type identification, parser-state contribution,
error conversion, memory accounting, shallow clone, deep clone under a new
lock, serialization, and single-rule parse dispatch).

Embedding conventions:
* An `Arc<Locked<T>>` handle is represented by a pair of natural numbers,
  `(addr, lockId)`, together with the payload value: `addr` is the identity
  of the reference-counted allocation (`Arc::new` draws a fresh address from
  a monotone allocation counter that is threaded through the functions that
  allocate), and `lockId` identifies the `SharedRwLock` instance the
  `Locked` wrapper is tied to.
* `SharedRwLock` and `SharedRwLockReadGuard` carry only their lock identity.
  The development-time assertion that a guard matches the lock of the value
  it reads (`read_with`) is a programmer-error check outside this model;
  reads simply project the stored value.
* The per-rule-kind data types (`NamespaceRule`, `StyleRule`, `MediaRule`,
  ...) live in sibling modules that are not part of the file under
  verification; where an operation of the core dispatches into them, the
  payload types and their operations are modelled from the spec, with a
  doc comment starting `Modelled from the spec:` on each such definition.
* Machine integers (`usize` byte counts) are modelled as `Nat`; no byte
  count in this file can overflow an observable bound.
-/

/-- Modelled from the spec: the parser state machine of the excluded
`rule_parser` module — ordered states Start, Imports, Namespaces, Body;
the dispatcher advances monotonically through them. -/
inductive State : Type where
  | Start
  | Imports
  | Namespaces
  | Body
  deriving Repr, DecidableEq

/-- The numeric order of the parser states (Start=1, Imports=2,
Namespaces=3, Body=4); "moving backward" means a smaller number. -/
def State.toNat : State → Nat
  | .Start => 1
  | .Imports => 2
  | .Namespaces => 3
  | .Body => 4

/-- The `CssRuleType` enum of the source, including the historical
`Charset`, `Keyframe` and `Margin` discriminants. -/
inductive CssRuleType : Type where
  | Style
  | Charset
  | Import
  | Media
  | FontFace
  | Page
  | Keyframes
  | Keyframe
  | Margin
  | Namespace
  | CounterStyle
  | Supports
  | Document
  | FontFeatureValues
  | Viewport
  deriving Repr, DecidableEq

/-- The literal integer discriminants assigned to `CssRuleType` in the
source (`Style = 1`, ..., `Viewport = 15`): the CSSOM-stable contract. -/
def CssRuleType.toNat : CssRuleType → Nat
  | .Style => 1
  | .Charset => 2
  | .Import => 3
  | .Media => 4
  | .FontFace => 5
  | .Page => 6
  | .Keyframes => 7
  | .Keyframe => 8
  | .Margin => 9
  | .Namespace => 10
  | .CounterStyle => 11
  | .Supports => 12
  | .Document => 13
  | .FontFeatureValues => 14
  | .Viewport => 15

/-- `SingleRuleParseError` of the source. -/
inductive SingleRuleParseError : Type where
  | Syntax
  | Hierarchy
  deriving Repr, DecidableEq

/-- `RulesMutateError` of the source. -/
inductive RulesMutateError : Type where
  | Syntax
  | IndexSize
  | HierarchyRequest
  | InvalidState
  deriving Repr, DecidableEq

/-- The `impl From<SingleRuleParseError> for RulesMutateError` conversion of
the source: Syntax maps to Syntax, Hierarchy maps to HierarchyRequest. -/
def RulesMutateError.fromSingleRuleParseError : SingleRuleParseError → RulesMutateError
  | .Syntax => .Syntax
  | .Hierarchy => .HierarchyRequest

/-- A `SharedRwLock`: one reader/writer lock instance per stylesheet tree,
identified by `id`. -/
structure SharedRwLock : Type where
  id : Nat
  deriving Repr, DecidableEq

/-- A `SharedRwLockReadGuard`: a read-capability token for the lock
identified by `lockId`. -/
structure SharedRwLockReadGuard : Type where
  lockId : Nat
  deriving Repr, DecidableEq

/-- Modelled from the spec: `DeepCloneParams` of the excluded `shared_lock`
module — opaque clone-scope controls (such as the reference sheet for
"shells only" import cloning), forwarded unchanged by the dispatcher. -/
structure DeepCloneParams : Type where
  reference_sheet : Option Nat
  deriving Repr, DecidableEq

/-- Modelled from the spec: `NamespaceRule` of the excluded
`namespace_rule` module — a namespace prefix/URL pair; a plain value with
no interior handles, cloned by value. -/
structure NamespaceRule : Type where
  pfx : String
  url : String
  deriving Repr, DecidableEq

/-- Modelled from the spec: `FontFaceRule` of the excluded `font_face_rule`
module — opaque descriptor data, a plain value. -/
structure FontFaceRule : Type where
  data : String
  deriving Repr, DecidableEq

/-- Modelled from the spec: `FontFeatureValuesRule` of the excluded
`font_feature_values_rule` module — opaque feature tables, a plain value. -/
structure FontFeatureValuesRule : Type where
  data : String
  deriving Repr, DecidableEq

/-- Modelled from the spec: `CounterStyleRule` of the excluded
`counter_style_rule` module — opaque descriptor data, a plain value. -/
structure CounterStyleRule : Type where
  data : String
  deriving Repr, DecidableEq

/-- Modelled from the spec: `ViewportRule` of the excluded `viewport_rule`
module — opaque descriptor data, a plain value. -/
structure ViewportRule : Type where
  data : String
  deriving Repr, DecidableEq

/-- Modelled from the spec: `StyleRule` of the excluded `style_rule`
module — a selector list plus a property-declaration block held behind its
own `Arc<Locked<_>>` handle `(blockAddr, blockLock)`. -/
structure StyleRule : Type where
  selectors : String
  blockAddr : Nat
  blockLock : Nat
  block : String
  deriving Repr, DecidableEq

/-- Modelled from the spec: `PageRule` of the excluded `page_rule` module —
a property-declaration block held behind its own `Arc<Locked<_>>` handle. -/
structure PageRule : Type where
  blockAddr : Nat
  blockLock : Nat
  block : String
  deriving Repr, DecidableEq

/-- Modelled from the spec: `KeyframesRule` of the excluded
`keyframes_rule` module — an animation name plus a list of keyframes, each
behind its own `Arc<Locked<_>>` handle `(addr, lockId, data)`. -/
structure KeyframesRule : Type where
  name : String
  keyframes : List (Nat × Nat × String)
  deriving Repr, DecidableEq

/-- Modelled from the spec: the backend-conditional clone capability of
`FontFaceRule` (`clone_conditionally_gecko_or_servo`) — owned by the
rule-data type, not by the dispatcher; in the servo backend it is a plain
value copy. -/
def FontFaceRule.clone_conditionally_gecko_or_servo (r : FontFaceRule) : FontFaceRule :=
  ⟨r.data⟩

/-- Modelled from the spec: the backend-conditional clone capability of
`CounterStyleRule` (`clone_conditionally_gecko_or_servo`); in the servo
backend it is a plain value copy. -/
def CounterStyleRule.clone_conditionally_gecko_or_servo (r : CounterStyleRule) : CounterStyleRule :=
  ⟨r.data⟩

/-- The `CssRule` enum of the source: a tagged union over the 12 rule
kinds, each holding an `Arc<Locked<payload>>` handle, modelled as
`(addr, lockId, payload)`.  The payloads of the four kinds whose rule data
contains a nested rule list (Import, Media, Supports, Document) are
modelled from the spec with their fields inlined into the constructor: an
opaque head string, the `(addr, lockId)` of the inner locked child-rule
list, and the child rules themselves. -/
inductive CssRule : Type where
  | Namespace (addr lockId : Nat) (rule : NamespaceRule)
  | Import (addr lockId : Nat) (url : String) (sheetRulesAddr sheetRulesLock : Nat)
      (sheetRules : List CssRule)
  | Style (addr lockId : Nat) (rule : StyleRule)
  | Media (addr lockId : Nat) (condition : String) (rulesAddr rulesLock : Nat)
      (rules : List CssRule)
  | FontFace (addr lockId : Nat) (rule : FontFaceRule)
  | FontFeatureValues (addr lockId : Nat) (rule : FontFeatureValuesRule)
  | CounterStyle (addr lockId : Nat) (rule : CounterStyleRule)
  | Viewport (addr lockId : Nat) (rule : ViewportRule)
  | Keyframes (addr lockId : Nat) (rule : KeyframesRule)
  | Supports (addr lockId : Nat) (condition : String) (rulesAddr rulesLock : Nat)
      (rules : List CssRule)
  | Page (addr lockId : Nat) (rule : PageRule)
  | Document (addr lockId : Nat) (condition : String) (rulesAddr rulesLock : Nat)
      (rules : List CssRule)
  deriving Repr

/-- `CssRule::rule_type` of the source: the CSSOM rule type of this rule,
determined by the variant tag alone. -/
def CssRule.rule_type : CssRule → CssRuleType
  | .Style .. => .Style
  | .Import .. => .Import
  | .Media .. => .Media
  | .FontFace .. => .FontFace
  | .FontFeatureValues .. => .FontFeatureValues
  | .CounterStyle .. => .CounterStyle
  | .Keyframes .. => .Keyframes
  | .Namespace .. => .Namespace
  | .Viewport .. => .Viewport
  | .Supports .. => .Supports
  | .Page .. => .Page
  | .Document .. => .Document

/-- `CssRule::rule_state` of the source: the parser-state contribution of
this rule (Import to Imports, Namespace to Namespaces, all others to
Body). -/
def CssRule.rule_state : CssRule → State
  | .Import .. => .Imports
  | .Namespace .. => .Namespaces
  | _ => .Body

/-- The `#[derive(Clone)]` shallow clone of `CssRule`: each variant clones
its `Arc` handle, which bumps the reference count and shares the very same
allocation — the address, lock identity and payload are all preserved. -/
def CssRule.clone : CssRule → CssRule
  | .Namespace a l r => .Namespace a l r
  | .Import a l u ra rl rs => .Import a l u ra rl rs
  | .Style a l r => .Style a l r
  | .Media a l c ra rl rs => .Media a l c ra rl rs
  | .FontFace a l r => .FontFace a l r
  | .FontFeatureValues a l r => .FontFeatureValues a l r
  | .CounterStyle a l r => .CounterStyle a l r
  | .Viewport a l r => .Viewport a l r
  | .Keyframes a l r => .Keyframes a l r
  | .Supports a l c ra rl rs => .Supports a l c ra rl rs
  | .Page a l r => .Page a l r
  | .Document a l c ra rl rs => .Document a l c ra rl rs

mutual
/-- All `Arc<Locked<_>>` handles `(addr, lockId)` reachable from a rule,
including the inner handles of container payloads, the declaration-block
handles of style and page rules, and the per-keyframe handles. -/
def CssRule.handles : CssRule → List (Nat × Nat)
  | .Namespace a l _ => [(a, l)]
  | .Import a l _ ra rl rs => (a, l) :: (ra, rl) :: cssRulesHandles rs
  | .Style a l r => [(a, l), (r.blockAddr, r.blockLock)]
  | .Media a l _ ra rl rs => (a, l) :: (ra, rl) :: cssRulesHandles rs
  | .FontFace a l _ => [(a, l)]
  | .FontFeatureValues a l _ => [(a, l)]
  | .CounterStyle a l _ => [(a, l)]
  | .Viewport a l _ => [(a, l)]
  | .Keyframes a l r => (a, l) :: r.keyframes.map (fun k => (k.1, k.2.1))
  | .Supports a l _ ra rl rs => (a, l) :: (ra, rl) :: cssRulesHandles rs
  | .Page a l r => [(a, l), (r.blockAddr, r.blockLock)]
  | .Document a l _ ra rl rs => (a, l) :: (ra, rl) :: cssRulesHandles rs

def cssRulesHandles : List CssRule → List (Nat × Nat)
  | [] => []
  | r :: rs => CssRule.handles r ++ cssRulesHandles rs
end

/-- The caller-supplied allocation-sizing callback `MallocSizeOfFn`,
abstracted to size a heap payload by its content string. -/
abbrev MallocSizeOfFn : Type := String → Nat

/-- Modelled from the spec: `StyleRule`'s own memory accounting (excluded
`style_rule` module) — sizes the retained declaration block. -/
def StyleRule.malloc_size_of_children (_guard : SharedRwLockReadGuard)
    (malloc_size_of : MallocSizeOfFn) (r : StyleRule) : Nat :=
  malloc_size_of r.block

/-- Modelled from the spec: `PageRule`'s own memory accounting (excluded
`page_rule` module) — sizes the retained declaration block. -/
def PageRule.malloc_size_of_children (_guard : SharedRwLockReadGuard)
    (malloc_size_of : MallocSizeOfFn) (r : PageRule) : Nat :=
  malloc_size_of r.block

mutual
/-- `MallocSizeOfWithGuard for CssRule` of the source: the exempt variants
(Namespace, Import, FontFace, FontFeatureValues, CounterStyle, Viewport,
Keyframes) report 0 — they are measured by a paired external owner — and
Style, Media, Supports, Page and Document delegate to the payload's own
`malloc_size_of_children` (the container payloads' accounting, from the
excluded modules, is modelled from the spec as a recursive sum over the
retained head data and the nested rules). -/
def CssRule.malloc_size_of_children (guard : SharedRwLockReadGuard)
    (malloc_size_of : MallocSizeOfFn) : CssRule → Nat
  | .Namespace .. => 0
  | .Import .. => 0
  | .Style _ _ r => StyleRule.malloc_size_of_children guard malloc_size_of r
  | .Media _ _ c _ _ rs => malloc_size_of c + cssRulesMallocSizeOf guard malloc_size_of rs
  | .FontFace .. => 0
  | .FontFeatureValues .. => 0
  | .CounterStyle .. => 0
  | .Viewport .. => 0
  | .Keyframes .. => 0
  | .Supports _ _ c _ _ rs => malloc_size_of c + cssRulesMallocSizeOf guard malloc_size_of rs
  | .Page _ _ r => PageRule.malloc_size_of_children guard malloc_size_of r
  | .Document _ _ c _ _ rs => malloc_size_of c + cssRulesMallocSizeOf guard malloc_size_of rs

def cssRulesMallocSizeOf (guard : SharedRwLockReadGuard)
    (malloc_size_of : MallocSizeOfFn) : List CssRule → Nat
  | [] => 0
  | r :: rs =>
      CssRule.malloc_size_of_children guard malloc_size_of r
        + cssRulesMallocSizeOf guard malloc_size_of rs
end

/-- Modelled from the spec: `MediaRule`'s own memory accounting (excluded
`media_rule` module) — recursive sum over the retained condition and the
nested rule list. -/
def MediaRule.malloc_size_of_children (guard : SharedRwLockReadGuard)
    (malloc_size_of : MallocSizeOfFn) (condition : String) (rules : List CssRule) : Nat :=
  malloc_size_of condition + cssRulesMallocSizeOf guard malloc_size_of rules

/-- Modelled from the spec: `SupportsRule`'s own memory accounting
(excluded `supports_rule` module). -/
def SupportsRule.malloc_size_of_children (guard : SharedRwLockReadGuard)
    (malloc_size_of : MallocSizeOfFn) (condition : String) (rules : List CssRule) : Nat :=
  malloc_size_of condition + cssRulesMallocSizeOf guard malloc_size_of rules

/-- Modelled from the spec: `DocumentRule`'s own memory accounting
(excluded `document_rule` module). -/
def DocumentRule.malloc_size_of_children (guard : SharedRwLockReadGuard)
    (malloc_size_of : MallocSizeOfFn) (condition : String) (rules : List CssRule) : Nat :=
  malloc_size_of condition + cssRulesMallocSizeOf guard malloc_size_of rules

/-- Modelled from the spec: `StyleRule::deep_clone_with_lock` (excluded
`style_rule` module) — copies the selector list and re-wraps the
declaration block in a fresh allocation under the destination lock. -/
def StyleRule.deep_clone_with_lock (lock : SharedRwLock) (_guard : SharedRwLockReadGuard)
    (_params : DeepCloneParams) (r : StyleRule) (ctr : Nat) : StyleRule × Nat :=
  (⟨r.selectors, ctr, lock.id, r.block⟩, ctr + 1)

/-- Modelled from the spec: `PageRule::deep_clone_with_lock` (excluded
`page_rule` module) — re-wraps the declaration block in a fresh allocation
under the destination lock. -/
def PageRule.deep_clone_with_lock (lock : SharedRwLock) (_guard : SharedRwLockReadGuard)
    (_params : DeepCloneParams) (r : PageRule) (ctr : Nat) : PageRule × Nat :=
  (⟨ctr, lock.id, r.block⟩, ctr + 1)

/-- Modelled from the spec: cloning a keyframe handle list — each keyframe
value is copied into a fresh allocation under the destination lock. -/
def cloneKeyframeHandles (lock : SharedRwLock) :
    List (Nat × Nat × String) → Nat → List (Nat × Nat × String) × Nat
  | [], ctr => ([], ctr)
  | k :: ks, ctr =>
      let p := cloneKeyframeHandles lock ks (ctr + 1)
      ((ctr, lock.id, k.2.2) :: p.1, p.2)

/-- Modelled from the spec: `KeyframesRule::deep_clone_with_lock` (excluded
`keyframes_rule` module) — copies the animation name and deep-clones each
keyframe handle under the destination lock. -/
def KeyframesRule.deep_clone_with_lock (lock : SharedRwLock) (_guard : SharedRwLockReadGuard)
    (_params : DeepCloneParams) (r : KeyframesRule) (ctr : Nat) : KeyframesRule × Nat :=
  let p := cloneKeyframeHandles lock r.keyframes ctr
  (⟨r.name, p.1⟩, p.2)

mutual
/-- `DeepCloneWithLock for CssRule` of the source: by variant, either
value-clone the payload and wrap it in a fresh allocation under the
destination lock (`Arc::new(lock.wrap(rule.clone()))`), invoke the payload
type's `clone_conditionally_gecko_or_servo` capability (FontFace,
CounterStyle), or delegate to the payload's own recursive
`deep_clone_with_lock`, forwarding `params` unchanged.  The allocation
counter `ctr` models `Arc::new`: every allocation draws the next fresh
address.  The nested per-kind clones (excluded modules) are modelled from
the spec as recursive clones of the nested content under the destination
lock. -/
def CssRule.deep_clone_with_lock (lock : SharedRwLock) (guard : SharedRwLockReadGuard)
    (params : DeepCloneParams) : CssRule → Nat → CssRule × Nat
  | .Namespace _ _ rule, ctr => (.Namespace ctr lock.id rule, ctr + 1)
  | .Import _ _ url _ _ rs, ctr =>
      let p := cssRulesDeepCloneWithLock lock guard params rs ctr
      (.Import (p.2 + 1) lock.id url p.2 lock.id p.1, p.2 + 2)
  | .Style _ _ rule, ctr =>
      let p := StyleRule.deep_clone_with_lock lock guard params rule ctr
      (.Style p.2 lock.id p.1, p.2 + 1)
  | .Media _ _ c _ _ rs, ctr =>
      let p := cssRulesDeepCloneWithLock lock guard params rs ctr
      (.Media (p.2 + 1) lock.id c p.2 lock.id p.1, p.2 + 2)
  | .FontFace _ _ rule, ctr =>
      (.FontFace ctr lock.id (FontFaceRule.clone_conditionally_gecko_or_servo rule), ctr + 1)
  | .FontFeatureValues _ _ rule, ctr => (.FontFeatureValues ctr lock.id rule, ctr + 1)
  | .CounterStyle _ _ rule, ctr =>
      (.CounterStyle ctr lock.id (CounterStyleRule.clone_conditionally_gecko_or_servo rule),
        ctr + 1)
  | .Viewport _ _ rule, ctr => (.Viewport ctr lock.id rule, ctr + 1)
  | .Keyframes _ _ rule, ctr =>
      let p := KeyframesRule.deep_clone_with_lock lock guard params rule ctr
      (.Keyframes p.2 lock.id p.1, p.2 + 1)
  | .Supports _ _ c _ _ rs, ctr =>
      let p := cssRulesDeepCloneWithLock lock guard params rs ctr
      (.Supports (p.2 + 1) lock.id c p.2 lock.id p.1, p.2 + 2)
  | .Page _ _ rule, ctr =>
      let p := PageRule.deep_clone_with_lock lock guard params rule ctr
      (.Page p.2 lock.id p.1, p.2 + 1)
  | .Document _ _ c _ _ rs, ctr =>
      let p := cssRulesDeepCloneWithLock lock guard params rs ctr
      (.Document (p.2 + 1) lock.id c p.2 lock.id p.1, p.2 + 2)

def cssRulesDeepCloneWithLock (lock : SharedRwLock) (guard : SharedRwLockReadGuard)
    (params : DeepCloneParams) : List CssRule → Nat → List CssRule × Nat
  | [], ctr => ([], ctr)
  | r :: rs, ctr =>
      let p := CssRule.deep_clone_with_lock lock guard params r ctr
      let q := cssRulesDeepCloneWithLock lock guard params rs p.2
      (p.1 :: q.1, q.2)
end

mutual
/-- The ordered (preorder) sequence of `rule_type()` values of a rule
tree. -/
def CssRule.ruleTypeSeq : CssRule → List CssRuleType
  | .Namespace .. => [.Namespace]
  | .Import _ _ _ _ _ rs => .Import :: cssRulesRuleTypeSeq rs
  | .Style .. => [.Style]
  | .Media _ _ _ _ _ rs => .Media :: cssRulesRuleTypeSeq rs
  | .FontFace .. => [.FontFace]
  | .FontFeatureValues .. => [.FontFeatureValues]
  | .CounterStyle .. => [.CounterStyle]
  | .Viewport .. => [.Viewport]
  | .Keyframes .. => [.Keyframes]
  | .Supports _ _ _ _ _ rs => .Supports :: cssRulesRuleTypeSeq rs
  | .Page .. => [.Page]
  | .Document _ _ _ _ _ rs => .Document :: cssRulesRuleTypeSeq rs

def cssRulesRuleTypeSeq : List CssRule → List CssRuleType
  | [] => []
  | r :: rs => CssRule.ruleTypeSeq r ++ cssRulesRuleTypeSeq rs
end

/-- Modelled from the spec: serialization of a keyframe list (excluded
`keyframes_rule` module). -/
def keyframesToCss : List (Nat × Nat × String) → String
  | [] => ""
  | k :: ks => k.2.2 ++ " " ++ keyframesToCss ks

mutual
/-- `ToCssWithGuard for CssRule` of the source: pure dispatch by tag over
the per-kind serializers, given a read guard.  The per-kind output
(excluded modules) is modelled from the spec as canonical text over the
payload content. -/
def CssRule.to_css (guard : SharedRwLockReadGuard) : CssRule → String
  | .Namespace _ _ r => "@namespace " ++ r.pfx ++ " url(" ++ r.url ++ ");"
  | .Import _ _ u _ _ _ => "@import url(" ++ u ++ ");"
  | .Style _ _ r => r.selectors ++ " \x7b " ++ r.block ++ " \x7d"
  | .Media _ _ c _ _ rs => "@media " ++ c ++ " \x7b " ++ cssRulesToCss guard rs ++ "\x7d"
  | .FontFace _ _ r => "@font-face \x7b " ++ r.data ++ " \x7d"
  | .FontFeatureValues _ _ r => "@font-feature-values \x7b " ++ r.data ++ " \x7d"
  | .CounterStyle _ _ r => "@counter-style \x7b " ++ r.data ++ " \x7d"
  | .Viewport _ _ r => "@viewport \x7b " ++ r.data ++ " \x7d"
  | .Keyframes _ _ r => "@keyframes " ++ r.name ++ " \x7b " ++ keyframesToCss r.keyframes ++ "\x7d"
  | .Supports _ _ c _ _ rs => "@supports " ++ c ++ " \x7b " ++ cssRulesToCss guard rs ++ "\x7d"
  | .Page _ _ r => "@page \x7b " ++ r.block ++ " \x7d"
  | .Document _ _ c _ _ rs =>
      "@-moz-document " ++ c ++ " \x7b " ++ cssRulesToCss guard rs ++ "\x7d"

def cssRulesToCss (guard : SharedRwLockReadGuard) : List CssRule → String
  | [] => ""
  | r :: rs => CssRule.to_css guard r ++ " " ++ cssRulesToCss guard rs
end

/-- Modelled from the spec: a single rule's raw CSS text, abstracted (the
cssparser tokenizer is an external collaborator) to the rule kind the text
denotes together with its content, or `malformed` for text no per-kind
grammar accepts. -/
inductive RuleText : Type where
  | atImport (url : String)
  | atNamespace (pfx url : String)
  | styleText (selectors block : String)
  | malformed
  deriving Repr, DecidableEq

/-- Modelled from the spec: the read-only view of the parent
`StylesheetContents` that `parse` consumes — origin tag, URL-resolution
data, quirks-mode flag, and the namespace table held behind the
stylesheet's read/write lock. -/
structure StylesheetContents : Type where
  origin : String
  url_data : String
  quirks_mode : Bool
  namespaces : List (String × String)
  deriving Repr, DecidableEq

/-- Modelled from the spec: the optional loader capability for nested
`@import` resolution; opaque here (network fetch is outside the core). -/
structure StylesheetLoader : Type where
  id : Nat
  deriving Repr, DecidableEq

/-- Modelled from the spec: the `TopLevelRuleParser` of the excluded
`rule_parser` module, restricted to the fields the dispatcher observes:
the grammar-ordering state, the `had_hierarchy_error` flag, and the
namespace table reached through the write guard. -/
structure TopLevelRuleParser : Type where
  state : State
  had_hierarchy_error : Bool
  namespaces : List (String × String)
  deriving Repr, DecidableEq

/-- Modelled from the spec: `TopLevelRuleParser::take_had_hierarchy_error`
reads the ordering-violation flag and resets it. -/
def TopLevelRuleParser.take_had_hierarchy_error (p : TopLevelRuleParser) :
    Bool × TopLevelRuleParser :=
  (p.had_hierarchy_error, { p with had_hierarchy_error := false })

/-- Modelled from the spec: `parse_one_rule` driving the per-kind rule
grammars of the excluded `rule_parser` module.  An `@import` rule is legal
only while the state has not advanced past Imports and an `@namespace`
rule only while it has not advanced past Namespaces; a rule rejected for
its placement records the ordering violation in `had_hierarchy_error`.  A
successfully parsed rule advances the state to its `rule_state`
contribution, and a parsed `@namespace` rule registers its prefix in the
namespace table as a side effect.  Malformed text fails without touching
the flag.  `lock` and `ctr` model the shared lock and the allocator from
which the constructed rule's handles are drawn. -/
def parse_one_rule (lock : SharedRwLock) (ctr : Nat) (css : RuleText)
    (p : TopLevelRuleParser) : Option CssRule × TopLevelRuleParser × Nat :=
  match css with
  | .atImport url =>
      if p.state.toNat ≤ State.Imports.toNat then
        (some (.Import (ctr + 1) lock.id url ctr lock.id []),
          { p with state := .Imports }, ctr + 2)
      else
        (none, { p with had_hierarchy_error := true }, ctr)
  | .atNamespace pfx url =>
      if p.state.toNat ≤ State.Namespaces.toNat then
        (some (.Namespace ctr lock.id ⟨pfx, url⟩),
          { p with state := .Namespaces,
                   namespaces := (pfx, url) :: p.namespaces }, ctr + 1)
      else
        (none, { p with had_hierarchy_error := true }, ctr)
  | .styleText sel blk =>
      (some (.Style (ctr + 1) lock.id ⟨sel, ctr, lock.id, blk⟩),
        { p with state := .Body }, ctr + 2)
  | .malformed => (none, p, ctr)

/-- `CssRule::parse` of the source: builds the parser context from the
parent stylesheet, defaults a `None` starting state to `Body`
(`state.unwrap_or(State::Body)`), runs `parse_one_rule` with a
`TopLevelRuleParser` whose `had_hierarchy_error` starts `false`, maps
success to the rule paired with the parser's resulting state, and maps
failure to `Hierarchy` exactly when `take_had_hierarchy_error()` yields
the recorded flag, `Syntax` otherwise.  The updated stylesheet contents
(namespace-table side effect) and the allocation counter are returned
alongside. -/
def CssRule.parse (css : RuleText) (parent_stylesheet_contents : StylesheetContents)
    (shared_lock : SharedRwLock) (state : Option State)
    (_loader : Option StylesheetLoader) (ctr : Nat) :
    Except SingleRuleParseError (CssRule × State) × StylesheetContents × Nat :=
  match parse_one_rule shared_lock ctr css
      { state := state.getD State.Body, had_hierarchy_error := false,
        namespaces := parent_stylesheet_contents.namespaces } with
  | (some rule, p, c2) =>
      (.ok (rule, p.state),
        { parent_stylesheet_contents with namespaces := p.namespaces }, c2)
  | (none, p, c2) =>
      (.error (if (p.take_had_hierarchy_error).1 then .Hierarchy else .Syntax),
        { parent_stylesheet_contents with namespaces := p.namespaces }, c2)

/-- Claim C1: for every `CssRule`, `rule_type()` returns the CSSOM-stable
integer identifier determined by the variant tag alone — Style 1, Import 3,
Media 4, FontFace 5, Page 6, Keyframes 7, Namespace 10, CounterStyle 11,
Supports 12, Document 13, FontFeatureValues 14, Viewport 15 — and the
unused identifiers Charset (2), Keyframe (8) and Margin (9) are never
returned for any rule. -/
theorem rule_type_returns_stable_cssom_identifier (r : CssRule) :
    (CssRuleType.toNat r.rule_type =
      match r with
      | .Style .. => 1
      | .Import .. => 3
      | .Media .. => 4
      | .FontFace .. => 5
      | .Page .. => 6
      | .Keyframes .. => 7
      | .Namespace .. => 10
      | .CounterStyle .. => 11
      | .Supports .. => 12
      | .Document .. => 13
      | .FontFeatureValues .. => 14
      | .Viewport .. => 15)
    ∧ r.rule_type ≠ .Charset ∧ r.rule_type ≠ .Keyframe ∧ r.rule_type ≠ .Margin := by
  cases r <;> simp [CssRule.rule_type, CssRuleType.toNat]

/-- Claim C2: `malloc_size_of_children` returns exactly 0 for the exempt
variants Namespace, Import, FontFace, FontFeatureValues, CounterStyle,
Viewport and Keyframes, for every payload, read guard and sizing callback;
and for Style, Media, Supports, Page and Document it returns the result of
delegating to the payload's own `malloc_size_of_children`. -/
theorem malloc_size_of_children_exemption_table (guard : SharedRwLockReadGuard)
    (malloc_size_of : MallocSizeOfFn) :
    (∀ a l r, CssRule.malloc_size_of_children guard malloc_size_of (.Namespace a l r) = 0)
    ∧ (∀ a l u ra rl rs,
        CssRule.malloc_size_of_children guard malloc_size_of (.Import a l u ra rl rs) = 0)
    ∧ (∀ a l r, CssRule.malloc_size_of_children guard malloc_size_of (.FontFace a l r) = 0)
    ∧ (∀ a l r,
        CssRule.malloc_size_of_children guard malloc_size_of (.FontFeatureValues a l r) = 0)
    ∧ (∀ a l r, CssRule.malloc_size_of_children guard malloc_size_of (.CounterStyle a l r) = 0)
    ∧ (∀ a l r, CssRule.malloc_size_of_children guard malloc_size_of (.Viewport a l r) = 0)
    ∧ (∀ a l r, CssRule.malloc_size_of_children guard malloc_size_of (.Keyframes a l r) = 0)
    ∧ (∀ a l r, CssRule.malloc_size_of_children guard malloc_size_of (.Style a l r)
        = StyleRule.malloc_size_of_children guard malloc_size_of r)
    ∧ (∀ a l c ra rl rs,
        CssRule.malloc_size_of_children guard malloc_size_of (.Media a l c ra rl rs)
          = MediaRule.malloc_size_of_children guard malloc_size_of c rs)
    ∧ (∀ a l c ra rl rs,
        CssRule.malloc_size_of_children guard malloc_size_of (.Supports a l c ra rl rs)
          = SupportsRule.malloc_size_of_children guard malloc_size_of c rs)
    ∧ (∀ a l r, CssRule.malloc_size_of_children guard malloc_size_of (.Page a l r)
        = PageRule.malloc_size_of_children guard malloc_size_of r)
    ∧ (∀ a l c ra rl rs,
        CssRule.malloc_size_of_children guard malloc_size_of (.Document a l c ra rl rs)
          = DocumentRule.malloc_size_of_children guard malloc_size_of c rs) := by
  refine ⟨?_, ?_, ?_, ?_, ?_, ?_, ?_, ?_, ?_, ?_, ?_, ?_⟩ <;> intros <;> rfl

/-- Claim C8: the conversion from `SingleRuleParseError` to
`RulesMutateError` maps Syntax to Syntax and Hierarchy to HierarchyRequest,
is injective (lossless), and never produces IndexSize or InvalidState. -/
theorem from_single_rule_parse_error_lossless :
    RulesMutateError.fromSingleRuleParseError .Syntax = .Syntax
    ∧ RulesMutateError.fromSingleRuleParseError .Hierarchy = .HierarchyRequest
    ∧ (∀ e₁ e₂ : SingleRuleParseError,
        RulesMutateError.fromSingleRuleParseError e₁
          = RulesMutateError.fromSingleRuleParseError e₂ → e₁ = e₂)
    ∧ (∀ e, RulesMutateError.fromSingleRuleParseError e ≠ .IndexSize
        ∧ RulesMutateError.fromSingleRuleParseError e ≠ .InvalidState) := by
  refine ⟨rfl, rfl, ?_, ?_⟩
  · intro e₁ e₂ h
    cases e₁ <;> cases e₂ <;> simp_all [RulesMutateError.fromSingleRuleParseError]
  · intro e
    cases e <;> simp [RulesMutateError.fromSingleRuleParseError]

/-- Witness for claim C8: the injectivity component applied at the concrete
input Hierarchy. -/
theorem from_single_rule_parse_error_lossless_witness :
    RulesMutateError.fromSingleRuleParseError .Hierarchy
      = RulesMutateError.fromSingleRuleParseError .Hierarchy
    ∧ (SingleRuleParseError.Hierarchy = SingleRuleParseError.Hierarchy) :=
  ⟨rfl, from_single_rule_parse_error_lossless.2.2.1 .Hierarchy .Hierarchy rfl⟩

/-- Claim C9: the private `rule_state()` classification returns Imports for
an Import rule, Namespaces for a Namespace rule, and Body for every one of
the other ten variants. -/
theorem rule_state_classification :
    (∀ a l u ra rl rs, (CssRule.Import a l u ra rl rs).rule_state = .Imports)
    ∧ (∀ a l r, (CssRule.Namespace a l r).rule_state = .Namespaces)
    ∧ (∀ a l r, (CssRule.Style a l r).rule_state = .Body)
    ∧ (∀ a l c ra rl rs, (CssRule.Media a l c ra rl rs).rule_state = .Body)
    ∧ (∀ a l r, (CssRule.FontFace a l r).rule_state = .Body)
    ∧ (∀ a l r, (CssRule.FontFeatureValues a l r).rule_state = .Body)
    ∧ (∀ a l r, (CssRule.CounterStyle a l r).rule_state = .Body)
    ∧ (∀ a l r, (CssRule.Viewport a l r).rule_state = .Body)
    ∧ (∀ a l r, (CssRule.Keyframes a l r).rule_state = .Body)
    ∧ (∀ a l c ra rl rs, (CssRule.Supports a l c ra rl rs).rule_state = .Body)
    ∧ (∀ a l r, (CssRule.Page a l r).rule_state = .Body)
    ∧ (∀ a l c ra rl rs, (CssRule.Document a l c ra rl rs).rule_state = .Body) := by
  refine ⟨?_, ?_, ?_, ?_, ?_, ?_, ?_, ?_, ?_, ?_, ?_, ?_⟩ <;> intros <;> rfl

/-- Claim C10: the derived shallow `Clone` of `CssRule` preserves the
variant tag and shares the very same reference-counted `Locked` payload
handle (identical address, lock identity and payload) — it aliases the
source's storage, unlike `deep_clone_with_lock`. -/
theorem clone_shallow_shares_handle (r : CssRule) :
    r.clone.rule_type = r.rule_type ∧ r.clone.handles = r.handles ∧ r.clone = r := by
  cases r <;> exact ⟨rfl, rfl, rfl⟩

/-- Claim C6: the deep-clone strategy by variant — Namespace,
FontFeatureValues and Viewport value-clone the payload into a fresh
allocation under the destination lock; FontFace and CounterStyle invoke
the rule-data type's `clone_conditionally_gecko_or_servo` capability; and
the container kinds Import, Style, Media, Keyframes, Supports, Page and
Document delegate to the payload's recursive deep clone under the
destination lock, forwarding `params` unchanged. -/
theorem deep_clone_strategy_by_variant (lock : SharedRwLock)
    (guard : SharedRwLockReadGuard) (params : DeepCloneParams) (ctr : Nat) :
    (∀ a l rule, CssRule.deep_clone_with_lock lock guard params (.Namespace a l rule) ctr
        = (.Namespace ctr lock.id rule, ctr + 1))
    ∧ (∀ a l rule,
        CssRule.deep_clone_with_lock lock guard params (.FontFeatureValues a l rule) ctr
          = (.FontFeatureValues ctr lock.id rule, ctr + 1))
    ∧ (∀ a l rule, CssRule.deep_clone_with_lock lock guard params (.Viewport a l rule) ctr
        = (.Viewport ctr lock.id rule, ctr + 1))
    ∧ (∀ a l rule, CssRule.deep_clone_with_lock lock guard params (.FontFace a l rule) ctr
        = (.FontFace ctr lock.id rule.clone_conditionally_gecko_or_servo, ctr + 1))
    ∧ (∀ a l rule, CssRule.deep_clone_with_lock lock guard params (.CounterStyle a l rule) ctr
        = (.CounterStyle ctr lock.id rule.clone_conditionally_gecko_or_servo, ctr + 1))
    ∧ (∀ a l u ra rl rs,
        CssRule.deep_clone_with_lock lock guard params (.Import a l u ra rl rs) ctr
          = (.Import ((cssRulesDeepCloneWithLock lock guard params rs ctr).2 + 1) lock.id u
              (cssRulesDeepCloneWithLock lock guard params rs ctr).2 lock.id
              (cssRulesDeepCloneWithLock lock guard params rs ctr).1,
             (cssRulesDeepCloneWithLock lock guard params rs ctr).2 + 2))
    ∧ (∀ a l rule, CssRule.deep_clone_with_lock lock guard params (.Style a l rule) ctr
        = (.Style (StyleRule.deep_clone_with_lock lock guard params rule ctr).2 lock.id
            (StyleRule.deep_clone_with_lock lock guard params rule ctr).1,
           (StyleRule.deep_clone_with_lock lock guard params rule ctr).2 + 1))
    ∧ (∀ a l c ra rl rs,
        CssRule.deep_clone_with_lock lock guard params (.Media a l c ra rl rs) ctr
          = (.Media ((cssRulesDeepCloneWithLock lock guard params rs ctr).2 + 1) lock.id c
              (cssRulesDeepCloneWithLock lock guard params rs ctr).2 lock.id
              (cssRulesDeepCloneWithLock lock guard params rs ctr).1,
             (cssRulesDeepCloneWithLock lock guard params rs ctr).2 + 2))
    ∧ (∀ a l rule, CssRule.deep_clone_with_lock lock guard params (.Keyframes a l rule) ctr
        = (.Keyframes (KeyframesRule.deep_clone_with_lock lock guard params rule ctr).2
            lock.id (KeyframesRule.deep_clone_with_lock lock guard params rule ctr).1,
           (KeyframesRule.deep_clone_with_lock lock guard params rule ctr).2 + 1))
    ∧ (∀ a l c ra rl rs,
        CssRule.deep_clone_with_lock lock guard params (.Supports a l c ra rl rs) ctr
          = (.Supports ((cssRulesDeepCloneWithLock lock guard params rs ctr).2 + 1) lock.id c
              (cssRulesDeepCloneWithLock lock guard params rs ctr).2 lock.id
              (cssRulesDeepCloneWithLock lock guard params rs ctr).1,
             (cssRulesDeepCloneWithLock lock guard params rs ctr).2 + 2))
    ∧ (∀ a l rule, CssRule.deep_clone_with_lock lock guard params (.Page a l rule) ctr
        = (.Page (PageRule.deep_clone_with_lock lock guard params rule ctr).2 lock.id
            (PageRule.deep_clone_with_lock lock guard params rule ctr).1,
           (PageRule.deep_clone_with_lock lock guard params rule ctr).2 + 1))
    ∧ (∀ a l c ra rl rs,
        CssRule.deep_clone_with_lock lock guard params (.Document a l c ra rl rs) ctr
          = (.Document ((cssRulesDeepCloneWithLock lock guard params rs ctr).2 + 1) lock.id c
              (cssRulesDeepCloneWithLock lock guard params rs ctr).2 lock.id
              (cssRulesDeepCloneWithLock lock guard params rs ctr).1,
             (cssRulesDeepCloneWithLock lock guard params rs ctr).2 + 2))
    ∧ (∀ r rs ctr2, cssRulesDeepCloneWithLock lock guard params (r :: rs) ctr2
        = ((CssRule.deep_clone_with_lock lock guard params r ctr2).1
            :: (cssRulesDeepCloneWithLock lock guard params rs
                  (CssRule.deep_clone_with_lock lock guard params r ctr2).2).1,
           (cssRulesDeepCloneWithLock lock guard params rs
              (CssRule.deep_clone_with_lock lock guard params r ctr2).2).2)) := by
  refine ⟨?_, ?_, ?_, ?_, ?_, ?_, ?_, ?_, ?_, ?_, ?_, ?_, ?_⟩ <;> intros <;> rfl

/-- Claim C3: whenever `CssRule::parse` fails, the returned error is
Hierarchy exactly when the underlying per-kind rule parser recorded an
ordering violation in `had_hierarchy_error`, and Syntax in every other
failure case. -/
theorem parse_failure_classification (css : RuleText)
    (contents : StylesheetContents) (shared_lock : SharedRwLock)
    (state : Option State) (loader : Option StylesheetLoader) (ctr : Nat)
    (e : SingleRuleParseError)
    (hfail : (CssRule.parse css contents shared_lock state loader ctr).1 = .error e) :
    (e = .Hierarchy ↔
      (parse_one_rule shared_lock ctr css
        { state := state.getD State.Body, had_hierarchy_error := false,
          namespaces := contents.namespaces }).2.1.had_hierarchy_error = true)
    ∧ (e = .Syntax ↔
      (parse_one_rule shared_lock ctr css
        { state := state.getD State.Body, had_hierarchy_error := false,
          namespaces := contents.namespaces }).2.1.had_hierarchy_error = false) := by
  cases css with
  | atImport url =>
      by_cases hst : (state.getD State.Body).toNat ≤ State.Imports.toNat
      · simp [CssRule.parse, parse_one_rule, hst] at hfail
      · simp only [CssRule.parse, parse_one_rule, hst, if_false,
          TopLevelRuleParser.take_had_hierarchy_error, if_true, ite_false, ite_true] at hfail ⊢
        simp at hfail
        simp [hst, ← hfail]
  | atNamespace pfx url =>
      by_cases hst : (state.getD State.Body).toNat ≤ State.Namespaces.toNat
      · simp [CssRule.parse, parse_one_rule, hst] at hfail
      · simp only [CssRule.parse, parse_one_rule, hst,
          TopLevelRuleParser.take_had_hierarchy_error, ite_false, ite_true] at hfail ⊢
        simp at hfail
        simp [hst, ← hfail]
  | styleText sel blk =>
      simp [CssRule.parse, parse_one_rule] at hfail
  | malformed =>
      simp only [CssRule.parse, parse_one_rule,
        TopLevelRuleParser.take_had_hierarchy_error] at hfail ⊢
      simp at hfail
      simp [← hfail]

/-- Witness for claim C3: parsing `@import` in starting state Body fails,
the per-kind parser records the ordering violation, and the classification
is Hierarchy. -/
theorem parse_failure_classification_witness :
    (SingleRuleParseError.Hierarchy = .Hierarchy ↔
      (parse_one_rule ⟨1⟩ 0 (.atImport "foo.css")
        { state := (some State.Body).getD State.Body, had_hierarchy_error := false,
          namespaces := [] }).2.1.had_hierarchy_error = true)
    ∧ (SingleRuleParseError.Hierarchy = .Syntax ↔
      (parse_one_rule ⟨1⟩ 0 (.atImport "foo.css")
        { state := (some State.Body).getD State.Body, had_hierarchy_error := false,
          namespaces := [] }).2.1.had_hierarchy_error = false) :=
  parse_failure_classification (.atImport "foo.css") ⟨"author", "base", false, []⟩
    ⟨1⟩ (some State.Body) none 0 .Hierarchy rfl

/-- Claim C4: `parse` with `startingState = None` behaves exactly as with
starting state Body; parsing `@import url(foo.css);` with starting state
Body (or None) fails with Hierarchy; and on success `parse` returns the
constructed rule together with the parser's resulting state. -/
theorem parse_none_defaults_to_body :
    (∀ css contents shared_lock loader ctr,
        CssRule.parse css contents shared_lock none loader ctr
          = CssRule.parse css contents shared_lock (some State.Body) loader ctr)
    ∧ (∀ url contents shared_lock loader ctr,
        (CssRule.parse (.atImport url) contents shared_lock (some State.Body) loader ctr).1
          = .error .Hierarchy)
    ∧ (∀ url contents shared_lock loader ctr,
        (CssRule.parse (.atImport url) contents shared_lock none loader ctr).1
          = .error .Hierarchy)
    ∧ (∀ css contents shared_lock state loader ctr rule p ctr2,
        parse_one_rule shared_lock ctr css
          { state := state.getD State.Body, had_hierarchy_error := false,
            namespaces := contents.namespaces } = (some rule, p, ctr2) →
        CssRule.parse css contents shared_lock state loader ctr
          = (.ok (rule, p.state),
             { contents with namespaces := p.namespaces }, ctr2)) := by
  refine ⟨fun _ _ _ _ _ => rfl, fun _ _ _ _ _ => rfl, fun _ _ _ _ _ => rfl, ?_⟩
  intro css contents shared_lock state loader ctr rule p ctr2 heq
  simp only [CssRule.parse, heq]

/-- Witness for claim C4: a successful parse of a style rule with starting
state None returns the constructed rule and the parser's resulting state
Body. -/
theorem parse_none_defaults_to_body_witness :
    CssRule.parse (.styleText ".a" "color:red") ⟨"author", "base", false, []⟩
        ⟨1⟩ none none 0
      = (.ok (.Style 1 1 ⟨".a", 0, 1, "color:red"⟩, State.Body),
         ⟨"author", "base", false, []⟩, 2) :=
  parse_none_defaults_to_body.2.2.2 (.styleText ".a" "color:red")
    ⟨"author", "base", false, []⟩ ⟨1⟩ none none 0
    (.Style 1 1 ⟨".a", 0, 1, "color:red"⟩)
    { state := .Body, had_hierarchy_error := false, namespaces := [] } 2 rfl

theorem cloneKeyframeHandles_final (lock : SharedRwLock)
    (ks : List (Nat × Nat × String)) (ctr : Nat) :
    (cloneKeyframeHandles lock ks ctr).2 = ctr + ks.length := by
  induction ks generalizing ctr with
  | nil => simp [cloneKeyframeHandles]
  | cons k ks ih => simp [cloneKeyframeHandles, ih]; omega

theorem cloneKeyframeHandles_handles (lock : SharedRwLock)
    (ks : List (Nat × Nat × String)) (ctr : Nat) :
    (cloneKeyframeHandles lock ks ctr).1.map (fun k => (k.1, k.2.1))
      = (List.range' ctr ks.length).map (fun a => (a, lock.id)) := by
  induction ks generalizing ctr with
  | nil => simp [cloneKeyframeHandles]
  | cons k ks ih => simp [cloneKeyframeHandles, ih, List.range'_succ]

theorem container_handles_spec (lockid p2 : Nat) (hs : List (Nat × Nat)) (ctr : Nat)
    (hle : ctr ≤ p2)
    (hmem : ∀ h ∈ hs, h.2 = lockid ∧ ctr ≤ h.1 ∧ h.1 < p2)
    (hnd : (hs.map Prod.fst).Nodup) :
    ctr ≤ p2 + 2
    ∧ (∀ h ∈ ((p2 + 1, lockid) :: (p2, lockid) :: hs),
        h.2 = lockid ∧ ctr ≤ h.1 ∧ h.1 < p2 + 2)
    ∧ ((((p2 + 1, lockid) :: (p2, lockid) :: hs).map Prod.fst).Nodup) := by
  refine ⟨by omega, ?_, ?_⟩
  · intro h hm
    rcases List.mem_cons.1 hm with hc | hc
    · subst hc; exact ⟨rfl, by omega, by omega⟩
    rcases List.mem_cons.1 hc with hc2 | hc2
    · subst hc2; exact ⟨rfl, by omega, by omega⟩
    · obtain ⟨e1, e2, e3⟩ := hmem h hc2
      exact ⟨e1, e2, by omega⟩
  · simp only [List.map_cons]
    rw [List.nodup_cons, List.nodup_cons]
    refine ⟨?_, ?_, hnd⟩
    · intro hm
      rcases List.mem_cons.1 hm with hc | hc
      · omega
      · rcases List.mem_map.1 hc with ⟨h, hh, he⟩
        obtain ⟨_, _, e3⟩ := hmem h hh
        omega
    · intro hm
      rcases List.mem_map.1 hm with ⟨h, hh, he⟩
      obtain ⟨_, _, e3⟩ := hmem h hh
      omega

mutual
theorem deep_clone_handles_spec (lock : SharedRwLock) (guard : SharedRwLockReadGuard)
    (params : DeepCloneParams) (r : CssRule) (ctr : Nat) :
    ctr ≤ (CssRule.deep_clone_with_lock lock guard params r ctr).2
    ∧ (∀ h ∈ (CssRule.deep_clone_with_lock lock guard params r ctr).1.handles,
        h.2 = lock.id ∧ ctr ≤ h.1
          ∧ h.1 < (CssRule.deep_clone_with_lock lock guard params r ctr).2)
    ∧ (((CssRule.deep_clone_with_lock lock guard params r ctr).1.handles.map
        Prod.fst).Nodup) := by
  cases r with
  | Namespace a l rule =>
      refine ⟨?_, ?_, ?_⟩ <;>
        simp [CssRule.deep_clone_with_lock, CssRule.handles]
  | FontFace a l rule =>
      refine ⟨?_, ?_, ?_⟩ <;>
        simp [CssRule.deep_clone_with_lock, CssRule.handles]
  | FontFeatureValues a l rule =>
      refine ⟨?_, ?_, ?_⟩ <;>
        simp [CssRule.deep_clone_with_lock, CssRule.handles]
  | CounterStyle a l rule =>
      refine ⟨?_, ?_, ?_⟩ <;>
        simp [CssRule.deep_clone_with_lock, CssRule.handles]
  | Viewport a l rule =>
      refine ⟨?_, ?_, ?_⟩ <;>
        simp [CssRule.deep_clone_with_lock, CssRule.handles]
  | Style a l rule =>
      refine ⟨?_, ?_, ?_⟩ <;>
        simp [CssRule.deep_clone_with_lock, CssRule.handles,
          StyleRule.deep_clone_with_lock] <;> omega
  | Page a l rule =>
      refine ⟨?_, ?_, ?_⟩ <;>
        simp [CssRule.deep_clone_with_lock, CssRule.handles,
          PageRule.deep_clone_with_lock] <;> omega
  | Keyframes a l rule =>
      have hfin := cloneKeyframeHandles_final lock rule.keyframes ctr
      have hh := cloneKeyframeHandles_handles lock rule.keyframes ctr
      have hfst : List.map Prod.fst ((cloneKeyframeHandles lock rule.keyframes ctr).1.map
          (fun k => (k.1, k.2.1))) = List.range' ctr rule.keyframes.length := by
        rw [hh, List.map_map]
        show List.map (fun a : Nat => a) (List.range' ctr rule.keyframes.length)
          = List.range' ctr rule.keyframes.length
        simp
      refine ⟨?_, ?_, ?_⟩
      · simp only [CssRule.deep_clone_with_lock, KeyframesRule.deep_clone_with_lock]
        omega
      · simp only [CssRule.deep_clone_with_lock, KeyframesRule.deep_clone_with_lock,
          CssRule.handles]
        intro h hmem
        rcases List.mem_cons.1 hmem with hc | hc
        · subst hc
          refine ⟨rfl, ?_, ?_⟩ <;> omega
        · have hmm : h ∈ (cloneKeyframeHandles lock rule.keyframes ctr).1.map
              (fun k => (k.1, k.2.1)) := hc
          rw [hh] at hmm
          rcases List.mem_map.1 hmm with ⟨x, hx, hxe⟩
          rcases List.mem_range'_1.1 hx with ⟨h1, h2⟩
          subst hxe
          refine ⟨rfl, by omega, by omega⟩
      · simp only [CssRule.deep_clone_with_lock, KeyframesRule.deep_clone_with_lock,
          CssRule.handles, List.map_cons]
        rw [List.nodup_cons, hfst]
        constructor
        · intro hmem
          rcases List.mem_range'_1.1 hmem with ⟨h1, h2⟩
          omega
        · exact List.nodup_range' _ _
  | Import a l u ra rl rs =>
      obtain ⟨le1, mem1, nd1⟩ := deep_clone_list_handles_spec lock guard params rs ctr
      simpa only [CssRule.deep_clone_with_lock, CssRule.handles] using
        container_handles_spec lock.id
          (cssRulesDeepCloneWithLock lock guard params rs ctr).2
          (cssRulesHandles (cssRulesDeepCloneWithLock lock guard params rs ctr).1)
          ctr le1 mem1 nd1
  | Media a l c ra rl rs =>
      obtain ⟨le1, mem1, nd1⟩ := deep_clone_list_handles_spec lock guard params rs ctr
      simpa only [CssRule.deep_clone_with_lock, CssRule.handles] using
        container_handles_spec lock.id
          (cssRulesDeepCloneWithLock lock guard params rs ctr).2
          (cssRulesHandles (cssRulesDeepCloneWithLock lock guard params rs ctr).1)
          ctr le1 mem1 nd1
  | Supports a l c ra rl rs =>
      obtain ⟨le1, mem1, nd1⟩ := deep_clone_list_handles_spec lock guard params rs ctr
      simpa only [CssRule.deep_clone_with_lock, CssRule.handles] using
        container_handles_spec lock.id
          (cssRulesDeepCloneWithLock lock guard params rs ctr).2
          (cssRulesHandles (cssRulesDeepCloneWithLock lock guard params rs ctr).1)
          ctr le1 mem1 nd1
  | Document a l c ra rl rs =>
      obtain ⟨le1, mem1, nd1⟩ := deep_clone_list_handles_spec lock guard params rs ctr
      simpa only [CssRule.deep_clone_with_lock, CssRule.handles] using
        container_handles_spec lock.id
          (cssRulesDeepCloneWithLock lock guard params rs ctr).2
          (cssRulesHandles (cssRulesDeepCloneWithLock lock guard params rs ctr).1)
          ctr le1 mem1 nd1

theorem deep_clone_list_handles_spec (lock : SharedRwLock) (guard : SharedRwLockReadGuard)
    (params : DeepCloneParams) (rs : List CssRule) (ctr : Nat) :
    ctr ≤ (cssRulesDeepCloneWithLock lock guard params rs ctr).2
    ∧ (∀ h ∈ cssRulesHandles (cssRulesDeepCloneWithLock lock guard params rs ctr).1,
        h.2 = lock.id ∧ ctr ≤ h.1
          ∧ h.1 < (cssRulesDeepCloneWithLock lock guard params rs ctr).2)
    ∧ ((cssRulesHandles (cssRulesDeepCloneWithLock lock guard params rs ctr).1).map
        Prod.fst).Nodup := by
  cases rs with
  | nil =>
      refine ⟨?_, ?_, ?_⟩ <;> simp [cssRulesDeepCloneWithLock, cssRulesHandles]
  | cons r rs =>
      obtain ⟨le1, mem1, nd1⟩ := deep_clone_handles_spec lock guard params r ctr
      obtain ⟨le2, mem2, nd2⟩ := deep_clone_list_handles_spec lock guard params rs
        (CssRule.deep_clone_with_lock lock guard params r ctr).2
      refine ⟨?_, ?_, ?_⟩
      · simp only [cssRulesDeepCloneWithLock]
        omega
      · simp only [cssRulesDeepCloneWithLock, cssRulesHandles]
        intro h hmem
        rcases List.mem_append.1 hmem with hc | hc
        · obtain ⟨e1, e2, e3⟩ := mem1 h hc
          exact ⟨e1, e2, by omega⟩
        · obtain ⟨e1, e2, e3⟩ := mem2 h hc
          exact ⟨e1, by omega, e3⟩
      · simp only [cssRulesDeepCloneWithLock, cssRulesHandles, List.map_append]
        refine List.Nodup.append nd1 nd2 ?_
        intro x hx1 hx2
        rcases List.mem_map.1 hx1 with ⟨h1, hm1, he1⟩
        rcases List.mem_map.1 hx2 with ⟨h2, hm2, he2⟩
        obtain ⟨_, _, b1⟩ := mem1 h1 hm1
        obtain ⟨_, b2, _⟩ := mem2 h2 hm2
        omega
end

/-- Claim C5: the tree returned by `deep_clone_with_lock` references only
the destination lock — every reachable handle, at every depth including
those reached transitively through container rules, is tied to the
destination lock, is a fresh allocation distinct from every other handle
of the clone, and shares no storage with the source tree; in particular no
reachable node references the source tree's lock. -/
theorem deep_clone_references_only_destination_lock (r : CssRule) (lock : SharedRwLock)
    (guard : SharedRwLockReadGuard) (params : DeepCloneParams) (ctr : Nat) (srcLock : Nat)
    (hfresh : ∀ h ∈ r.handles, h.1 < ctr) (hsrc : srcLock ≠ lock.id) :
    (∀ h ∈ (CssRule.deep_clone_with_lock lock guard params r ctr).1.handles,
        h.2 = lock.id ∧ h.2 ≠ srcLock ∧ h.1 ∉ r.handles.map Prod.fst)
    ∧ ((CssRule.deep_clone_with_lock lock guard params r ctr).1.handles.map
        Prod.fst).Nodup := by
  obtain ⟨hle, hmem, hnd⟩ := deep_clone_handles_spec lock guard params r ctr
  refine ⟨?_, hnd⟩
  intro h hm
  obtain ⟨e1, e2, e3⟩ := hmem h hm
  refine ⟨e1, ?_, ?_⟩
  · rw [e1]
    exact fun hq => hsrc hq.symm
  · intro hq
    rcases List.mem_map.1 hq with ⟨h2, hm2, he⟩
    have := hfresh h2 hm2
    omega

/-- Witness for claim C5: deep-cloning a concrete media rule containing a
style rule and a namespace rule, all under source lock 0, into destination
lock 1 with allocation counter 10. -/
theorem deep_clone_references_only_destination_lock_witness :
    (∀ h ∈ (CssRule.deep_clone_with_lock ⟨1⟩ ⟨0⟩ ⟨none⟩
        (.Media 3 0 "screen" 4 0
          [.Style 5 0 ⟨".a", 6, 0, "color:red"⟩, .Namespace 7 0 ⟨"svg", "u"⟩]) 10).1.handles,
        h.2 = 1 ∧ h.2 ≠ 0
          ∧ h.1 ∉ (CssRule.Media 3 0 "screen" 4 0
              [.Style 5 0 ⟨".a", 6, 0, "color:red"⟩,
               .Namespace 7 0 ⟨"svg", "u"⟩]).handles.map Prod.fst)
    ∧ ((CssRule.deep_clone_with_lock ⟨1⟩ ⟨0⟩ ⟨none⟩
        (.Media 3 0 "screen" 4 0
          [.Style 5 0 ⟨".a", 6, 0, "color:red"⟩,
           .Namespace 7 0 ⟨"svg", "u"⟩]) 10).1.handles.map Prod.fst).Nodup :=
  deep_clone_references_only_destination_lock
    (.Media 3 0 "screen" 4 0
      [.Style 5 0 ⟨".a", 6, 0, "color:red"⟩, .Namespace 7 0 ⟨"svg", "u"⟩])
    ⟨1⟩ ⟨0⟩ ⟨none⟩ 10 0 (by decide) (by decide)

theorem cloneKeyframeHandles_to_css (lock : SharedRwLock)
    (ks : List (Nat × Nat × String)) (ctr : Nat) :
    keyframesToCss (cloneKeyframeHandles lock ks ctr).1 = keyframesToCss ks := by
  induction ks generalizing ctr with
  | nil => rfl
  | cons k ks ih => simp [cloneKeyframeHandles, keyframesToCss, ih]

mutual
theorem deep_clone_preserves_shape (lock : SharedRwLock) (guard : SharedRwLockReadGuard)
    (params : DeepCloneParams) (r : CssRule) (ctr : Nat)
    (gClone gSrc : SharedRwLockReadGuard) :
    (CssRule.deep_clone_with_lock lock guard params r ctr).1.ruleTypeSeq = r.ruleTypeSeq
    ∧ CssRule.to_css gClone (CssRule.deep_clone_with_lock lock guard params r ctr).1
        = CssRule.to_css gSrc r := by
  cases r with
  | Namespace a l rule =>
      exact ⟨rfl, rfl⟩
  | FontFace a l rule =>
      exact ⟨rfl, rfl⟩
  | FontFeatureValues a l rule =>
      exact ⟨rfl, rfl⟩
  | CounterStyle a l rule =>
      exact ⟨rfl, rfl⟩
  | Viewport a l rule =>
      exact ⟨rfl, rfl⟩
  | Style a l rule =>
      exact ⟨rfl, rfl⟩
  | Page a l rule =>
      exact ⟨rfl, rfl⟩
  | Keyframes a l rule =>
      refine ⟨rfl, ?_⟩
      simp [CssRule.deep_clone_with_lock, KeyframesRule.deep_clone_with_lock,
        CssRule.to_css, cloneKeyframeHandles_to_css]
  | Import a l u ra rl rs =>
      obtain ⟨h1, h2⟩ := deep_clone_list_preserves_shape lock guard params rs ctr gClone gSrc
      constructor
      · simp only [CssRule.deep_clone_with_lock, CssRule.ruleTypeSeq]
        rw [h1]
      · rfl
  | Media a l c ra rl rs =>
      obtain ⟨h1, h2⟩ := deep_clone_list_preserves_shape lock guard params rs ctr gClone gSrc
      constructor
      · simp only [CssRule.deep_clone_with_lock, CssRule.ruleTypeSeq]
        rw [h1]
      · simp only [CssRule.deep_clone_with_lock, CssRule.to_css]
        rw [h2]
  | Supports a l c ra rl rs =>
      obtain ⟨h1, h2⟩ := deep_clone_list_preserves_shape lock guard params rs ctr gClone gSrc
      constructor
      · simp only [CssRule.deep_clone_with_lock, CssRule.ruleTypeSeq]
        rw [h1]
      · simp only [CssRule.deep_clone_with_lock, CssRule.to_css]
        rw [h2]
  | Document a l c ra rl rs =>
      obtain ⟨h1, h2⟩ := deep_clone_list_preserves_shape lock guard params rs ctr gClone gSrc
      constructor
      · simp only [CssRule.deep_clone_with_lock, CssRule.ruleTypeSeq]
        rw [h1]
      · simp only [CssRule.deep_clone_with_lock, CssRule.to_css]
        rw [h2]

theorem deep_clone_list_preserves_shape (lock : SharedRwLock)
    (guard : SharedRwLockReadGuard) (params : DeepCloneParams) (rs : List CssRule)
    (ctr : Nat) (gClone gSrc : SharedRwLockReadGuard) :
    cssRulesRuleTypeSeq (cssRulesDeepCloneWithLock lock guard params rs ctr).1
      = cssRulesRuleTypeSeq rs
    ∧ cssRulesToCss gClone (cssRulesDeepCloneWithLock lock guard params rs ctr).1
      = cssRulesToCss gSrc rs := by
  cases rs with
  | nil => exact ⟨rfl, rfl⟩
  | cons r rs =>
      obtain ⟨h1, h2⟩ := deep_clone_preserves_shape lock guard params r ctr gClone gSrc
      obtain ⟨h3, h4⟩ := deep_clone_list_preserves_shape lock guard params rs
        (CssRule.deep_clone_with_lock lock guard params r ctr).2 gClone gSrc
      constructor
      · simp only [cssRulesDeepCloneWithLock, cssRulesRuleTypeSeq]
        rw [h1, h3]
      · simp only [cssRulesDeepCloneWithLock, cssRulesToCss]
        rw [h2, h4]
end

/-- Claim C7: for every rule, destination lock, source guard and params,
the clone returned by `deep_clone_with_lock` has the same `rule_type()` as
the source, and a whole cloned tree yields the same ordered sequence of
`rule_type()` values and identical `to_css` output as its source (under
any read guards). -/
theorem deep_clone_preserves_rule_type_and_serialization (r : CssRule)
    (lock : SharedRwLock) (guard : SharedRwLockReadGuard) (params : DeepCloneParams)
    (ctr : Nat) (gClone gSrc : SharedRwLockReadGuard) :
    (CssRule.deep_clone_with_lock lock guard params r ctr).1.rule_type = r.rule_type
    ∧ (CssRule.deep_clone_with_lock lock guard params r ctr).1.ruleTypeSeq = r.ruleTypeSeq
    ∧ CssRule.to_css gClone (CssRule.deep_clone_with_lock lock guard params r ctr).1
        = CssRule.to_css gSrc r := by
  refine ⟨?_, (deep_clone_preserves_shape lock guard params r ctr gClone gSrc).1,
    (deep_clone_preserves_shape lock guard params r ctr gClone gSrc).2⟩
  cases r <;> simp [CssRule.deep_clone_with_lock, CssRule.rule_type]
